import Mathlib

/-!
Verification development for the AMS backend (src/backend/main.py): a FastAPI
service with five GET handlers returning literal JSON payloads, some of which
embed `datetime.utcnow().isoformat()`.  Handlers are embedded as functions of
the clock reading the framework takes at request time; integers stay `Int`,
Python floats that occur here are the exact literal `0.0` and are embedded as
`Rat`.
-/

/-- JSON values as produced by the handlers: strings, ints, floats (all float
literals in the source are exact decimals, embedded as `Rat`), arrays and
objects with ordered fields. -/
inductive Json where
  | str (s : String)
  | int (n : Int)
  | float (q : Rat)
  | arr (elems : List Json)
  | obj (fields : List (String × Json))

/-- Look up a key in an object's field list (first match, as in a Python dict
built from distinct literal keys). -/
def lookupKey : List (String × Json) → String → Option Json
  | [], _ => none
  | (k, v) :: fs, key => if k = key then some v else lookupKey fs key

/-- Field access on a JSON value: defined on objects, `none` elsewhere. -/
def Json.getField : Json → String → Option Json
  | .obj fs, key => lookupKey fs key
  | _, _ => none

/-- Whether a JSON value is an object with the given field. -/
def Json.hasField (j : Json) (key : String) : Bool :=
  (j.getField key).isSome

/-- The ordered field names of a JSON object (empty for non-objects). -/
def Json.fieldNames : Json → List String
  | .obj fs => fs.map Prod.fst
  | _ => []

/-- The clock reading `datetime.utcnow()` yields during a request: a naive
UTC datetime, components as natural numbers. -/
structure DateTime where
  year : Nat
  month : Nat
  day : Nat
  hour : Nat
  minute : Nat
  second : Nat
  microsecond : Nat

/-- ASCII decimal digit character for `n % 10`. -/
def digitChar (n : Nat) : Char := Char.ofNat (48 + n % 10)

/-- Two-character zero-padded decimal, as CPython's `%02d` renders the
range-invariant datetime components (values below 100). -/
def pad2 (n : Nat) : List Char := [digitChar (n / 10), digitChar n]

/-- Four-character zero-padded decimal (`%04d`, year below 10000). -/
def pad4 (n : Nat) : List Char :=
  [digitChar (n / 1000), digitChar (n / 100), digitChar (n / 10), digitChar n]

/-- Six-character zero-padded decimal (`%06d`, microseconds below 10^6). -/
def pad6 (n : Nat) : List Char :=
  [digitChar (n / 100000), digitChar (n / 10000), digitChar (n / 1000),
   digitChar (n / 100), digitChar (n / 10), digitChar n]

/-- The characters of `datetime.isoformat()`:
`YYYY-MM-DDTHH:MM:SS` with `.ffffff` appended exactly when the microsecond
component is nonzero, as CPython's `datetime.isoformat` does. -/
def isoChars (d : DateTime) : List Char :=
  pad4 d.year ++ '-' :: (pad2 d.month ++ '-' :: (pad2 d.day ++ 'T' ::
    (pad2 d.hour ++ ':' :: (pad2 d.minute ++ ':' :: (pad2 d.second ++
      (if d.microsecond = 0 then [] else '.' :: pad6 d.microsecond))))))

/-- `datetime.utcnow().isoformat()` as the handlers embed it in payloads. -/
def isoformat (d : DateTime) : String := ⟨isoChars d⟩

/-- ASCII digit test. -/
def isDigit (c : Char) : Bool := 48 ≤ c.toNat && c.toNat ≤ 57

/-- Recognizer for a six-digit fractional-second block. -/
def isoMicro : List Char → Bool
  | [u1, u2, u3, u4, u5, u6] =>
      isDigit u1 && isDigit u2 && isDigit u3 && isDigit u4 && isDigit u5 && isDigit u6
  | _ => false

/-- Recognizer for what may follow the seconds of an ISO-8601 datetime here:
nothing, or a dot and six fractional digits. -/
def isoTail : List Char → Bool
  | [] => true
  | '.' :: rest => isoMicro rest
  | _ => false

/-- Recognizer for the time part `HH:MM:SS` followed by an `isoTail`. -/
def isoTime : List Char → Bool
  | h1 :: h2 :: ':' :: m1 :: m2 :: ':' :: s1 :: s2 :: rest =>
      isDigit h1 && isDigit h2 && isDigit m1 && isDigit m2 &&
      isDigit s1 && isDigit s2 && isoTail rest
  | _ => false

/-- Recognizer for an ISO-8601 datetime `YYYY-MM-DDTHH:MM:SS[.ffffff]`. -/
def isoDate : List Char → Bool
  | y1 :: y2 :: y3 :: y4 :: '-' :: m1 :: m2 :: '-' :: d1 :: d2 :: 'T' :: rest =>
      isDigit y1 && isDigit y2 && isDigit y3 && isDigit y4 &&
      isDigit m1 && isDigit m2 && isDigit d1 && isDigit d2 && isoTime rest
  | _ => false

/-- A string parses as an ISO-8601 datetime (the combined date-time form the
service emits). -/
def parsesAsIso8601 (s : String) : Bool := isoDate s.toList

/-- Handler of `GET /` (`root` in main.py): system information payload. -/
def root (now : DateTime) : Json :=
  .obj [
    ("message", .str "Welcome to AMS - Agent Management System"),
    ("version", .str "1.0.0"),
    ("description", .str "B2B SaaS platform for enterprise AI agent fleet management"),
    ("status", .str "operational"),
    ("timestamp", .str (isoformat now)),
    ("endpoints", .obj [
      ("docs", .str "/api/docs"),
      ("health", .str "/health"),
      ("api", .str "/api/v1")])]

/-- Handler of `GET /health` (`health_check` in main.py). -/
def health_check (now : DateTime) : Json :=
  .obj [
    ("status", .str "healthy"),
    ("timestamp", .str (isoformat now)),
    ("service", .str "ams-backend"),
    ("version", .str "1.0.0")]

/-- Handler of `GET /api/v1/status` (`api_status` in main.py). -/
def api_status (now : DateTime) : Json :=
  .obj [
    ("api_version", .str "v1"),
    ("status", .str "operational"),
    ("features", .obj [
      ("agent_management", .str "coming_soon"),
      ("observability", .str "coming_soon"),
      ("governance", .str "coming_soon"),
      ("analytics", .str "coming_soon")]),
    ("timestamp", .str (isoformat now))]

/-- Handler of `GET /api/v1/agents` (`list_agents` in main.py); its body reads
neither the clock nor anything else. -/
def list_agents (_ : DateTime) : Json :=
  .obj [
    ("agents", .arr []),
    ("total", .int 0),
    ("message", .str "Agent management coming soon - Task 2 in progress")]

/-- Handler of `GET /api/v1/metrics` (`get_metrics` in main.py); its body reads
neither the clock nor anything else. -/
def get_metrics (_ : DateTime) : Json :=
  .obj [
    ("metrics", .obj [
      ("active_agents", .int 0),
      ("total_tasks", .int 0),
      ("success_rate", .float 0),
      ("cost_savings", .float 0)]),
    ("message", .str "Metrics dashboard coming soon - Task 8 in progress")]

/-- The routing table of the FastAPI `app`: the five paths registered with
`@app.get` in main.py, in source order, each with its handler. -/
def app : List (String × (DateTime → Json)) :=
  [("/", root),
   ("/health", health_check),
   ("/api/v1/status", api_status),
   ("/api/v1/agents", list_agents),
   ("/api/v1/metrics", get_metrics)]

/-- Find the handler registered for a path. -/
def lookupRoute : List (String × (DateTime → Json)) → String → Option (DateTime → Json)
  | [], _ => none
  | (p, h) :: rs, path => if p = path then some h else lookupRoute rs path

/-- An HTTP response: status code and JSON body. -/
structure Response where
  status : Nat
  body : Json

/-- Modelled from the spec: the FastAPI constructor in main.py also registers
framework-generated documentation routes at `docs_url = /api/docs`,
`redoc_url = /api/redoc` and the OpenAPI schema path; their page content is
produced by the framework, not by code under src. -/
def frameworkDocPaths : List String := ["/api/docs", "/api/redoc", "/openapi.json"]

/-- Modelled from the spec: the body of a framework-generated documentation
page, left as an uninterpreted constant since no repository code produces it. -/
def frameworkDocBody : Json := .str "framework-generated documentation page"

/-- Modelled from the spec: FastAPI's dispatch of a GET request.  A path
registered with `@app.get` returns HTTP 200 with the handler's payload
(handlers in main.py return plain dicts, which FastAPI serializes with the
default 200 status); a framework documentation path is served by the
framework; any other path gets the framework's default error response,
HTTP 404 with body `{"detail": "Not Found"}`. -/
def dispatch (path : String) (now : DateTime) : Response :=
  match lookupRoute app path with
  | some h => ⟨200, h now⟩
  | none =>
      if path ∈ frameworkDocPaths then ⟨200, frameworkDocBody⟩
      else ⟨404, .obj [("detail", .str "Not Found")]⟩

/-- Python whitespace stripped by `int()` around an integer literal. -/
def isSpace (c : Char) : Bool :=
  c == ' ' || c == '\t' || c == '\n' || c == '\r' || c == '\x0b' || c == '\x0c'

/-- Numeric value of an ASCII digit. -/
def digitVal (c : Char) : Nat := c.toNat - 48

/-- Continue parsing a Python integer literal after its first digit:
further digits, single underscores between digits, and trailing whitespace
are accepted; anything else raises `ValueError`. -/
def pyDigitsRest (acc : Nat) : List Char → Option Nat
  | [] => some acc
  | '_' :: c :: cs =>
      if isDigit c then pyDigitsRest (acc * 10 + digitVal c) cs else none
  | c :: cs =>
      if isDigit c then pyDigitsRest (acc * 10 + digitVal c) cs
      else if (c :: cs).all isSpace then some acc else none

/-- Python's `int(s)` on a string: optional surrounding whitespace, optional
sign, then a digit run (with single underscores allowed between digits);
`none` models the `ValueError` raised on anything else. -/
def pyInt (s : String) : Option Int :=
  match s.toList.dropWhile isSpace with
  | '-' :: c :: cs =>
      if isDigit c then (pyDigitsRest (digitVal c) cs).map (fun n => -(n : Int)) else none
  | '+' :: c :: cs =>
      if isDigit c then (pyDigitsRest (digitVal c) cs).map (fun n => (n : Int)) else none
  | c :: cs =>
      if isDigit c then (pyDigitsRest (digitVal c) cs).map (fun n => (n : Int)) else none
  | [] => none

/-- `port = int(os.getenv("PORT", 8000))` from the `__main__` block:
when `PORT` is unset `os.getenv` returns the default `8000` and `int(8000)`
is `8000`; when set, the string must parse as an integer or `int()` raises
`ValueError` (the error side). -/
def resolvePort (env : String → Option String) : Except String Int :=
  match env "PORT" with
  | none => Except.ok 8000
  | some s =>
      match pyInt s with
      | some n => Except.ok n
      | none => Except.error "ValueError"

/-- A started server: the port uvicorn listens on, and the request handler. -/
structure Server where
  port : Int
  handle : String → DateTime → Response

/-- The `__main__` block: compute the port, then hand `app` to `uvicorn.run`
on that port.  A `ValueError` from `int()` propagates before the server ever
listens, so no server value exists on the error side. -/
def startServer (env : String → Option String) : Except String Server :=
  match resolvePort env with
  | Except.ok p => Except.ok ⟨p, dispatch⟩
  | Except.error e => Except.error e

-- ### Helper lemmas

theorem isDigit_ofNat (m : Nat) (h : m < 10) : isDigit (Char.ofNat (48 + m)) = true := by
  interval_cases m <;> decide

theorem isDigit_digitChar (n : Nat) : isDigit (digitChar n) = true := by
  show isDigit (Char.ofNat (48 + n % 10)) = true
  exact isDigit_ofNat (n % 10) (Nat.mod_lt _ (by decide))

theorem parses_isoformat (d : DateTime) : parsesAsIso8601 (isoformat d) = true := by
  show isoDate (isoChars d) = true
  by_cases h : d.microsecond = 0 <;>
    simp [isoChars, pad4, pad2, pad6, h, isoDate, isoTime, isoTail, isoMicro,
      isDigit_digitChar]

-- ### Claim theorems

/-- C1 (counterexample): the claim says every handler's payload contains a
timestamp field; at a concrete clock reading the response of
`GET /api/v1/agents` has no `timestamp` field. -/
theorem c1_counterexample :
    ((dispatch "/api/v1/agents" ⟨2024, 1, 1, 0, 0, 0, 0⟩).body).hasField "timestamp" = false :=
  rfl

/-- C1 (amended): the responses of `root`, `health_check` and `api_status`
each contain a `timestamp` field whose value is `datetime.utcnow().isoformat()`
and parses as an ISO-8601 datetime; the responses of `list_agents` and
`get_metrics` contain no timestamp field at all. -/
theorem c1_amended_timestamps : ∀ t : DateTime,
    (root t).getField "timestamp" = some (Json.str (isoformat t)) ∧
    (health_check t).getField "timestamp" = some (Json.str (isoformat t)) ∧
    (api_status t).getField "timestamp" = some (Json.str (isoformat t)) ∧
    parsesAsIso8601 (isoformat t) = true ∧
    (list_agents t).hasField "timestamp" = false ∧
    (get_metrics t).hasField "timestamp" = false :=
  fun t => ⟨rfl, rfl, rfl, parses_isoformat t, rfl, rfl⟩

/-- C2 (counterexample): the claim says the router defines exactly six fixed
paths; the `app` in main.py registers five handler routes, not six. -/
theorem c2_counterexample : app.length = 5 ∧ ¬ app.length = 6 :=
  ⟨rfl, by decide⟩

/-- C2 (amended): the router defines exactly five fixed paths, pairwise
distinct, each mapped to its own handler returning a literal structured
payload; the root, health and status handlers additionally include a current
timestamp, while the agents and metrics handlers return literal payloads with
no timestamp. -/
theorem c2_amended_routes :
    app.map Prod.fst = ["/", "/health", "/api/v1/status", "/api/v1/agents", "/api/v1/metrics"] ∧
    app.length = 5 ∧
    (app.map Prod.fst).Nodup ∧
    ∀ t : DateTime,
      (root t).hasField "timestamp" = true ∧
      (health_check t).hasField "timestamp" = true ∧
      (api_status t).hasField "timestamp" = true ∧
      (list_agents t).hasField "timestamp" = false ∧
      (get_metrics t).hasField "timestamp" = false :=
  ⟨rfl, rfl, by decide, fun _ => ⟨rfl, rfl, rfl, rfl, rfl⟩⟩

/-- C3: on every call, the `GET /api/v1/agents` response has `agents` equal to
the empty array and `total` equal to `0`. -/
theorem c3_agents_empty : ∀ t : DateTime,
    ((dispatch "/api/v1/agents" t).body).getField "agents" = some (Json.arr []) ∧
    ((dispatch "/api/v1/agents" t).body).getField "total" = some (Json.int 0) :=
  fun _ => ⟨rfl, rfl⟩

/-- C4: on every call, the `GET /api/v1/metrics` response's `metrics` object
has `active_agents = 0`, `total_tasks = 0`, `success_rate = 0.0` and
`cost_savings = 0.0`. -/
theorem c4_metrics_zero : ∀ t : DateTime,
    (((dispatch "/api/v1/metrics" t).body).getField "metrics").bind
      (fun m => m.getField "active_agents") = some (Json.int 0) ∧
    (((dispatch "/api/v1/metrics" t).body).getField "metrics").bind
      (fun m => m.getField "total_tasks") = some (Json.int 0) ∧
    (((dispatch "/api/v1/metrics" t).body).getField "metrics").bind
      (fun m => m.getField "success_rate") = some (Json.float 0) ∧
    (((dispatch "/api/v1/metrics" t).body).getField "metrics").bind
      (fun m => m.getField "cost_savings") = some (Json.float 0) :=
  fun _ => ⟨rfl, rfl, rfl, rfl⟩

/-- C5 (counterexample): the claim says each body contains exactly the fields
enumerated in the interface table; the root response contains a `description`
field, which the table's row for `/` (welcome message, version, status,
timestamp, endpoint map) does not enumerate. -/
theorem c5_counterexample :
    (root ⟨2024, 1, 1, 0, 0, 0, 0⟩).hasField "description" = true ∧
    "description" ∉ (["message", "version", "status", "timestamp", "endpoints"] : List String) :=
  ⟨rfl, by decide⟩

/-- C5 (amended): each registered route answers GET with status 200 and a JSON
object body; `/health` has exactly the fields status, timestamp, service,
version; `/` has exactly message, version, description, status, timestamp,
endpoints (the table's fields plus `description`); the other three routes have
exactly the fields of their literal payloads. -/
theorem c5_amended_fields : ∀ t : DateTime,
    (dispatch "/" t).status = 200 ∧
    ((dispatch "/" t).body).fieldNames =
      ["message", "version", "description", "status", "timestamp", "endpoints"] ∧
    (dispatch "/health" t).status = 200 ∧
    ((dispatch "/health" t).body).fieldNames = ["status", "timestamp", "service", "version"] ∧
    (dispatch "/api/v1/status" t).status = 200 ∧
    ((dispatch "/api/v1/status" t).body).fieldNames = ["api_version", "status", "features", "timestamp"] ∧
    (dispatch "/api/v1/agents" t).status = 200 ∧
    ((dispatch "/api/v1/agents" t).body).fieldNames = ["agents", "total", "message"] ∧
    (dispatch "/api/v1/metrics" t).status = 200 ∧
    ((dispatch "/api/v1/metrics" t).body).fieldNames = ["metrics", "message"] :=
  fun _ => ⟨rfl, rfl, rfl, rfl, rfl, rfl, rfl, rfl, rfl, rfl⟩

/-- C6: the resolved port depends only on the `PORT` environment variable, and
when `PORT` is unset the port is 8000 and the server starts listening on 8000. -/
theorem c6_port_selection :
    (∀ env₁ env₂ : String → Option String,
      env₁ "PORT" = env₂ "PORT" → resolvePort env₁ = resolvePort env₂) ∧
    (∀ env : String → Option String, env "PORT" = none →
      resolvePort env = Except.ok 8000 ∧ startServer env = Except.ok ⟨8000, dispatch⟩) := by
  constructor
  · intro env₁ env₂ h
    unfold resolvePort
    rw [h]
  · intro env h
    have hp : resolvePort env = Except.ok 8000 := by unfold resolvePort; rw [h]
    exact ⟨hp, by unfold startServer; rw [hp]⟩

/-- C6 (witness): with the empty environment the server starts on port 8000. -/
theorem c6_port_selection_witness :
    resolvePort (fun _ => none) = Except.ok 8000 ∧
    startServer (fun _ => none) = Except.ok ⟨8000, dispatch⟩ :=
  c6_port_selection.2 (fun _ => none) rfl

/-- C7: a GET whose path is neither a registered handler route nor a
framework documentation path gets the framework default HTTP 404, a non-2xx
status; and every registered handler route answers 200, so no handler-defined
error path exists. -/
theorem c7_unknown_path : ∀ (path : String) (t : DateTime),
    (lookupRoute app path = none → path ∉ frameworkDocPaths →
      (dispatch path t).status = 404 ∧ (dispatch path t).status / 100 ≠ 2) ∧
    (∀ h, lookupRoute app path = some h → (dispatch path t).status = 200) := by
  intro path t
  constructor
  · intro h1 h2
    have hd : dispatch path t = ⟨404, Json.obj [("detail", Json.str "Not Found")]⟩ := by
      unfold dispatch
      rw [h1]
      exact if_neg h2
    rw [hd]
    exact ⟨rfl, by decide⟩
  · intro h hh
    unfold dispatch
    rw [hh]

/-- C7 (witness): the unknown path `/nope` gets a 404. -/
theorem c7_unknown_path_witness :
    (dispatch "/nope" ⟨2024, 1, 1, 0, 0, 0, 0⟩).status = 404 ∧
    (dispatch "/nope" ⟨2024, 1, 1, 0, 0, 0, 0⟩).status / 100 ≠ 2 :=
  (c7_unknown_path "/nope" ⟨2024, 1, 1, 0, 0, 0, 0⟩).1 rfl (by decide)

/-- C8: on every call, the `GET /health` response's `status` field is the
hard-coded literal `"healthy"`; no system state is inspected, so the health
check can never report anything else. -/
theorem c8_health_constant : ∀ t : DateTime,
    ((dispatch "/health" t).body).getField "status" = some (Json.str "healthy") :=
  fun _ => rfl

/-- C9: the agents and metrics responses are identical across any two calls at
any two clock readings: the handlers read no input, no environment and no
clock. -/
theorem c9_handlers_constant : ∀ t₁ t₂ : DateTime,
    dispatch "/api/v1/agents" t₁ = dispatch "/api/v1/agents" t₂ ∧
    dispatch "/api/v1/metrics" t₁ = dispatch "/api/v1/metrics" t₂ :=
  fun _ _ => ⟨rfl, rfl⟩

/-- C10: if `PORT` is set to a string that `int()` cannot parse, startup fails
with `ValueError` before the server listens, and no started server exists, so
no request is ever served. -/
theorem c10_bad_port : ∀ (s : String) (env : String → Option String),
    pyInt s = none → env "PORT" = some s →
    startServer env = Except.error "ValueError" ∧
    ∀ srv : Server, startServer env ≠ Except.ok srv := by
  intro s env h1 h2
  have hp : resolvePort env = Except.error "ValueError" := by
    unfold resolvePort
    rw [h2]
    simp [h1]
  have hs : startServer env = Except.error "ValueError" := by
    unfold startServer
    rw [hp]
  refine ⟨hs, fun srv hok => ?_⟩
  rw [hs] at hok
  exact Except.noConfusion hok

/-- C10 (witness): with `PORT=abc` startup fails with `ValueError`. -/
theorem c10_bad_port_witness :
    pyInt "abc" = none ∧
    startServer (fun k => if k = "PORT" then some "abc" else none) = Except.error "ValueError" :=
  ⟨rfl, (c10_bad_port "abc" (fun k => if k = "PORT" then some "abc" else none) rfl rfl).1⟩
